import Mathlib

/-!
Shallow embedding of the demo components of the react-19-latest repository.
Each definition translates one handler, hook or render expression from the
source files; the theorems below settle the frozen claims about them.
-/

namespace React19

/-- A JavaScript value passed as the argument of a click handler: either an
actual boolean, or a non-boolean value such as the DOM event object the
browser passes when the handler is installed directly on a button. -/
inductive JSArg where
  | boolArg (b : Bool)
  | eventArg
deriving DecidableEq, Repr

/-- The toggleVal function of useToggle.js: the stored value is negated when
the argument is not a boolean, and set to the argument when it is. -/
def toggleVal (val : JSArg) (value : Bool) : Bool :=
  match val with
  | .boolArg b => b
  | .eventArg => !value

/-- The first heading of CustomHooks.jsx: the h2 text is rendered exactly
when the toggle value is true, and nothing is rendered otherwise. -/
def customHooksHeading (value : Bool) : Option String :=
  if value then some "Customs Hooks in ReactJs 🪝" else none

/-- A checkbox change event as seen by onHandleChange in InputHandling.jsx:
the value attribute of the box and its new checked flag. -/
structure CheckboxEvent where
  value : String
  checked : Bool
deriving DecidableEq, Repr

/-- onHandleChange of InputHandling.jsx: a box that became checked appends
its value to the skills list; one that became unchecked filters its value
out of the skills list. -/
def onHandleChange (skills : List String) (evt : CheckboxEvent) : List String :=
  if evt.checked then skills ++ [evt.value]
  else (skills.filter (fun s => s ≠ evt.value))

/-- The rendered Skills line of InputHandling.jsx: the skills list joined
with a comma and a space. -/
def skillsLine (skills : List String) : String :=
  "Skills: " ++ String.intercalate ", " skills

/-- A parsed JSON value, standing for the result of response.json() in the
useFetch hook. -/
inductive Json where
  | null
  | bool (b : Bool)
  | num (n : Int)
  | str (s : String)
  | arr (xs : List Json)

/-- The state triple held by the useFetch hook. -/
structure FetchState where
  data : Option Json
  error : Option String
  loading : Bool

/-- The initial state of useFetch: data null, error null, loading true. -/
def initialFetchState : FetchState :=
  { data := none, error := none, loading := true }

/-- The outcome of the awaited fetch call: the promise rejects with an error
carrying a message, or it resolves with a response whose ok flag and parsed
json body are given. -/
inductive FetchOutcome where
  | reject (message : String)
  | resolve (ok : Bool) (body : Json)

/-- The effect body of useFetch: a rejection is caught and its message
stored in error; a response with ok false raises Error with the fixed
message, caught the same way; an ok response stores the parsed body in
data; the finally clause always sets loading to false. -/
def useFetchEffect (outcome : FetchOutcome) (s : FetchState) : FetchState :=
  match outcome with
  | .reject msg => { s with error := some msg, loading := false }
  | .resolve ok body =>
      if ok then { s with data := some body, loading := false }
      else { s with error := some "Network response was not ok", loading := false }

/-- The system clock, read as a locale time string at each instant. -/
abbrev SystemClock := Nat → String

/-- A snapshot of the DigitalClock component together with the periods of
the live interval timers it has registered with the host. -/
structure ClockState where
  currTime : String
  timers : List Nat
deriving DecidableEq, Repr

/-- Mounting DigitalClock.jsx: currTime starts as the current time string
and the mount-only effect registers a single interval with a 1000 ms
period. -/
def mountClock (clock : SystemClock) : ClockState :=
  { currTime := clock 0, timers := [1000] }

/-- One firing of the registered interval at instant t: currTime is
replaced with the current system time string. -/
def clockTick (clock : SystemClock) (t : Nat) (s : ClockState) : ClockState :=
  { s with currTime := clock t }

/-- The cleanup returned by the mount effect, run on unmount: it clears the
interval the effect registered, leaving no live timer. -/
def clockCleanup (s : ClockState) : ClockState :=
  { s with timers := [] }

/-- The observable attributes of a rendered submit button. -/
structure ButtonView where
  disabled : Bool
  label : String
deriving DecidableEq, Repr

/-- The submit button rendered by CustomForm in UseFormStatus.jsx: disabled
is the pending flag and the label switches on it. -/
def customFormButton (pending : Bool) : ButtonView :=
  { disabled := pending
    label := if pending then "Submitting..." else "Submit" }

/-- The submit button rendered by the UseTransition component: disabled is
the pending flag and the label switches on it. -/
def useTransitionButton (pending : Bool) : ButtonView :=
  { disabled := pending
    label := if pending then "Submitting..." else "Submit" }

/-- A node of the rendered context tree: a provider supplying a string to
its subtree, a plain component wrapping a child, or the consumer leaf that
reads the context. -/
inductive CtxTree where
  | provider (value : String) (child : CtxTree)
  | wrapper (name : String) (child : CtxTree)
  | consumer
deriving DecidableEq, Repr

/-- The value a useContext consumer obtains: the value of the nearest
enclosing provider, or the ambient value when none encloses it. -/
def consumerValue : CtxTree → Option String → Option String
  | .provider v child, _ => consumerValue child (some v)
  | .wrapper _ child, cur => consumerValue child cur
  | .consumer, cur => cur

/-- StudentComp.jsx renders SubjectComp, the consumer of SubjectCtxt. -/
def studentComp : CtxTree := .wrapper "StudentComp" .consumer

/-- ClassComp.jsx renders StudentComp. -/
def classComp : CtxTree := .wrapper "ClassComp" studentComp

/-- Modelled from the spec: the College component, whose file is not among
the provided sources, is an intermediate descendant component rendered
between the provider and ClassComp; the spec describes the provider as
exposing a single string value to descendant components. -/
def college : CtxTree := .wrapper "College" classComp

/-- ParentCtxt: the SubjectCtxt provider supplying the subject state string
to the College subtree. -/
def parentCtxt (subject : String) : CtxTree := .provider subject college

/-- The paragraph text SubjectComp.jsx renders from the context value. -/
def subjectCompText (ctxVal : String) : String := "Subject:" ++ ctxVal

/-- updateLastHobby of ArrayState.jsx: the entry at index length minus one
is overwritten with the new hobby and the copied list is stored. -/
def updateLastHobby (hobbies : List String) (hobby : String) : List String :=
  hobbies.set (hobbies.length - 1) hobby

/-- The location field of the details object in ObjectState.jsx. -/
structure Location where
  city : String
  country : String
deriving DecidableEq, Repr

/-- The details object held in state by ObjectState.jsx. -/
structure Details where
  fullName : String
  age : Nat
  location : Location
  skills : List String
deriving DecidableEq, Repr

/-- The initial details state of ObjectState.jsx. -/
def initialDetails : Details :=
  { fullName := "Soumadip Banerjee"
    age := 29
    location := { city := "Kolkata", country := "India" }
    skills := ["React", "JavaScript", "Node.js"] }

/-- The onChange handler of the name input in ObjectState.jsx: the previous
details object is spread and its fullName field overwritten with the input
value. -/
def updateFullName (details : Details) (v : String) : Details :=
  { details with fullName := v }

/-- C1: invoking toggleVal with a non-boolean argument, as the Toggle
Heading button click handler does with its event object, sets the stored
value to the negation of the current value, and CustomHooks renders the
heading exactly when the stored value is true. -/
theorem toggle_click_flips_heading (cur v : Bool) :
    toggleVal .eventArg cur = !cur ∧
    (customHooksHeading v = some "Customs Hooks in ReactJs 🪝" ↔ v = true) := by
  refine ⟨rfl, ?_⟩
  cases v <;> simp [customHooksHeading]

/-- C2: a checked change event appends the label to the end of the skills
list; an unchecked one removes every occurrence of that label while the
rest keeps its relative order; the rendered Skills line is the list joined
by a comma and a space. -/
theorem checkbox_accumulates_skills (skills : List String) (skill : String) :
    onHandleChange skills ⟨skill, true⟩ = skills ++ [skill] ∧
    onHandleChange skills ⟨skill, false⟩ = skills.filter (fun s => s ≠ skill) ∧
    skill ∉ onHandleChange skills ⟨skill, false⟩ ∧
    (onHandleChange skills ⟨skill, false⟩).Sublist skills ∧
    skillsLine skills = "Skills: " ++ String.intercalate ", " skills := by
  refine ⟨rfl, rfl, ?_, ?_, rfl⟩
  · simp [onHandleChange]
  · simp [onHandleChange]

/-- C3: from the initial useFetch state, a rejected fetch stores the error
message and clears loading while data stays null; a response with ok false
does the same with the fixed network-error message; an ok response stores
the parsed body in data, leaves error null and clears loading. -/
theorem fetch_failure_stored (msg : String) (body : Json) :
    useFetchEffect (.reject msg) initialFetchState =
      { data := none, error := some msg, loading := false } ∧
    useFetchEffect (.resolve false body) initialFetchState =
      { data := none, error := some "Network response was not ok", loading := false } ∧
    useFetchEffect (.resolve true body) initialFetchState =
      { data := some body, error := none, loading := false } :=
  ⟨rfl, rfl, rfl⟩

/-- C4: mounting DigitalClock registers exactly one interval timer with a
1000 ms period, every firing replaces currTime with the current system time
string, and the cleanup clears the interval so no timer stays live. -/
theorem digital_clock_timer_lifecycle (clock : SystemClock) (t : Nat) (s : ClockState) :
    (mountClock clock).timers = [1000] ∧
    (clockTick clock t s).currTime = clock t ∧
    (clockCleanup s).timers = [] :=
  ⟨rfl, rfl, rfl⟩

/-- C5: in every rendered state of both CustomForm and UseTransition, the
disabled attribute of the submit button equals the pending flag. -/
theorem submit_disabled_iff_pending (pending : Bool) :
    (customFormButton pending).disabled = pending ∧
    (useTransitionButton pending).disabled = pending :=
  ⟨rfl, rfl⟩

/-- C6: in both CustomForm and UseTransition the button label is
Submitting... exactly when pending is true, Submit exactly when pending is
false, and takes no other value in any rendered state. -/
theorem submit_label_two_strings (pending : Bool) :
    (customFormButton pending).label = (if pending then "Submitting..." else "Submit") ∧
    (useTransitionButton pending).label = (if pending then "Submitting..." else "Submit") ∧
    ((customFormButton pending).label = "Submitting..." ∨
      (customFormButton pending).label = "Submit") ∧
    ((useTransitionButton pending).label = "Submitting..." ∨
      (useTransitionButton pending).label = "Submit") := by
  cases pending <;> simp [customFormButton, useTransitionButton]

/-- C7: for every subject string held by ParentCtxt, including the empty
string, the consumer SubjectComp obtains exactly that string through the
provider, and renders it right after the Subject: prefix. -/
theorem context_exposes_subject (subject : String) :
    consumerValue (parentCtxt subject) none = some subject ∧
    subjectCompText subject = "Subject:" ++ subject ∧
    consumerValue (parentCtxt "") none = some "" :=
  ⟨rfl, rfl, rfl⟩

/-- C8: toggleVal called with a boolean argument sets the stored value to
exactly that boolean regardless of the current value, so the Show Heading
and Hide Heading buttons are idempotent. -/
theorem toggle_bool_sets_exactly (b cur : Bool) :
    toggleVal (.boolArg b) cur = b ∧
    toggleVal (.boolArg b) (toggleVal (.boolArg b) cur) = toggleVal (.boolArg b) cur :=
  ⟨rfl, rfl⟩

/-- C9: on a non-empty hobbies list, updateLastHobby keeps the length,
makes the last element the new hobby, and leaves every earlier element
unchanged. -/
theorem update_last_hobby_frame (hobbies : List String) (hobby : String)
    (hne : hobbies ≠ []) :
    (updateLastHobby hobbies hobby).length = hobbies.length ∧
    (updateLastHobby hobbies hobby).getLast? = some hobby ∧
    ∀ i, i < hobbies.length - 1 → (updateLastHobby hobbies hobby)[i]? = hobbies[i]? := by
  have hlt : hobbies.length - 1 < hobbies.length :=
    Nat.sub_lt (List.length_pos.mpr hne) Nat.one_pos
  refine ⟨by simp [updateLastHobby], ?_, ?_⟩
  · rw [updateLastHobby, List.getLast?_eq_getElem? _, List.length_set,
      List.getElem?_set_eq_of_lt hobby hlt]
  · intro i hi
    exact List.getElem?_set_ne (by omega)

/-- Witness for C9 at the initial hobbies list of ArrayState.jsx. -/
theorem update_last_hobby_frame_witness :
    (["Reading 📚", "Coding 💻", "Movies 🎥"] : List String) ≠ [] ∧
    (updateLastHobby ["Reading 📚", "Coding 💻", "Movies 🎥"] "Chess ♟️").getLast? =
      some "Chess ♟️" :=
  ⟨by decide,
    (update_last_hobby_frame ["Reading 📚", "Coding 💻", "Movies 🎥"] "Chess ♟️"
      (by decide)).2.1⟩

/-- C10: the name input handler of ObjectState stores a details object
whose fullName is the input value while age, location city and country,
and the skills array are unchanged. -/
theorem name_input_updates_only_fullName (d : Details) (v : String) :
    (updateFullName d v).fullName = v ∧
    (updateFullName d v).age = d.age ∧
    (updateFullName d v).location.city = d.location.city ∧
    (updateFullName d v).location.country = d.location.country ∧
    (updateFullName d v).skills = d.skills :=
  ⟨rfl, rfl, rfl, rfl, rfl⟩

end React19
